import Mathlib

/-!
Verification of the email-driven job-status pipeline of the LinkedinAutomation
backend (`app/services/email_classifier.py`, `app/services/job_matcher.py`,
`app/services/email_processor.py`), as a shallow embedding.

Modelling conventions:
* Python floats are modelled by exact rationals `ℚ`; all the constants involved
  (0.1 … 1.0) are exact decimals, and the claims are about the algorithm, not
  about binary rounding.  Constants are written as fractions (`9/10` for 0.9).
* `datetime` values are modelled as integer UNIX timestamps in seconds (`ℤ`);
  `timedelta.days` is floor division by 86400, which matches Python's
  normalisation of negative timedeltas.
* `difflib.SequenceMatcher(None, a, b).ratio()` is an external stdlib
  dependency; it is a parameter `ratio : String → String → ℚ` of the embedded
  functions, constrained where needed by `RatioBounded` (its real range is
  `[0, 1]`).
* `json.loads` is likewise external and is passed as a parameter
  `loads : String → Option JsonVal` (`none` models `json.JSONDecodeError`).
* Python string primitives (`lower`, `split`, `endswith`, substring `in`) are
  given executable structural definitions on `List Char` (`py*` helpers),
  modelling ASCII text.
-/

set_option linter.unusedVariables false

/-! ## Python string primitives -/

/-- `listPre a b`: `a` is a prefix of `b` (structural, executable). -/
def listPre : List Char → List Char → Bool
  | [], _ => true
  | _ :: _, [] => false
  | x :: xs, y :: ys => x == y && listPre xs ys

/-- `listInfixB a b`: `a` occurs contiguously in `b` — Python's substring
test `a in b` (note `"" in s` is `True`). -/
def listInfixB (a : List Char) : List Char → Bool
  | [] => a.isEmpty
  | c :: bs => listPre a (c :: bs) || listInfixB a bs

/-- Python substring test `a in b`. -/
def pySubstr (a b : String) : Bool :=
  listInfixB a.data b.data

/-- Python `s.startswith(pre)`. -/
def pyStartsWith (s pre : String) : Bool :=
  listPre pre.data s.data

/-- Python `s.endswith(suf)`. -/
def pyEndsWith (s suf : String) : Bool :=
  listPre suf.data.reverse s.data.reverse

/-- Python `s.lower()` (ASCII). -/
def pyLower (s : String) : String :=
  String.mk (s.data.map Char.toLower)

/-- Python `s[n:]` for a byte/char offset `n`. -/
def pyDrop (s : String) (n : Nat) : String :=
  String.mk (s.data.drop n)

/-- Python `s[:-n]` (drop the last `n` characters). -/
def pyDropRight (s : String) (n : Nat) : String :=
  String.mk (s.data.take (s.data.length - n))

/-- Python `s.strip()`. -/
def pyStrip (s : String) : String :=
  String.mk (((s.data.dropWhile Char.isWhitespace).reverse.dropWhile
    Char.isWhitespace).reverse)

/-- Python `ch in s` for a single character. -/
def pyContainsChar (s : String) (c : Char) : Bool :=
  s.data.contains c

/-- Helper for `pyWords`: split on whitespace runs, `acc` holds the current
word reversed. -/
def pyWordsAux : List Char → List Char → List String
  | acc, [] => if acc.isEmpty then [] else [String.mk acc.reverse]
  | acc, c :: cs =>
      if c.isWhitespace then
        if acc.isEmpty then pyWordsAux [] cs
        else String.mk acc.reverse :: pyWordsAux [] cs
      else pyWordsAux (c :: acc) cs

/-- Python `s.split()`: split on whitespace runs, dropping empty pieces. -/
def pyWords (s : String) : List String :=
  pyWordsAux [] s.data

/-- Helper for `pySplitChar`. -/
def pySplitCharAux (sep : Char) : List Char → List Char → List String
  | acc, [] => [String.mk acc.reverse]
  | acc, c :: cs =>
      if c == sep then String.mk acc.reverse :: pySplitCharAux sep [] cs
      else pySplitCharAux sep (c :: acc) cs

/-- Python `s.split(sep)` for a one-character separator. -/
def pySplitChar (sep : Char) (s : String) : List String :=
  pySplitCharAux sep [] s.data

/-- Python `' '.join(ws)`. -/
def pyJoinSpace : List String → String
  | [] => ""
  | [w] => w
  | w :: ws => w ++ " " ++ pyJoinSpace ws

/-- A duplicate-free list with the members of `l` — Python `set(l)` (only
membership and cardinality of the result are ever used). -/
def pyDedup : List String → List String
  | [] => []
  | x :: xs => if xs.contains x then pyDedup xs else x :: pyDedup xs

/-- Python `set(s.split())`, as a duplicate-free list of words. -/
def pyWordSet (s : String) : List String :=
  pyDedup (pyWords s)

/-- Python `min(a, b)` on numbers. -/
def pyMin (a b : ℚ) : ℚ := if b < a then b else a

/-- Python `max(a, b)` on numbers. -/
def pyMax (a b : ℚ) : ℚ := if a < b then b else a

/-- Range constraint satisfied by `difflib.SequenceMatcher.ratio`. -/
def RatioBounded (ratio : String → String → ℚ) : Prop :=
  ∀ a b : String, 0 ≤ ratio a b ∧ ratio a b ≤ 1

/-! ## `app/services/email_classifier.py` -/

/-- A parsed JSON value, the codomain of the external `json.loads`. -/
inductive JsonVal where
  | null
  | bool (b : Bool)
  | num (q : ℚ)
  | str (s : String)
  | arr (xs : List JsonVal)
  | obj (fields : List (String × JsonVal))

/-- The record assembled by `EmailClassifier`: the six keys the service
promises plus the optional `error` key added on failure paths.  Values are
raw JSON values, since the parser does not coerce types. -/
structure ClassRecord where
  email_type : JsonVal
  confidence_score : JsonVal
  company_name : JsonVal
  job_title : JsonVal
  sentiment : JsonVal
  extracted_data : JsonVal
  error : Option String

/-- Python dict lookup on the fields of a parsed JSON object (later duplicate
keys win, as in `json.loads`). -/
def getField (fields : List (String × JsonVal)) (k : String) : Option JsonVal :=
  List.lookup k fields.reverse

/-- The markdown-fence stripping and final `.strip()` that
`EmailClassifier._parse_classification_response` applies to the raw reply
before handing it to `json.loads`. -/
def strip_markdown_fence (response : String) : String :=
  let r1 := if pyStartsWith response "```json" then pyDrop response 7 else response
  let r2 := if pyEndsWith r1 "```" then pyDropRight r1 3 else r1
  pyStrip r2

/-- `EmailClassifier._parse_classification_response`.  Strips a markdown fence
(see `strip_markdown_fence`), runs `json.loads` (the `loads` parameter), fills
defaults for missing keys.  `Except.error` models the uncaught `TypeError`
raised when the parsed JSON is not an object (only `JSONDecodeError` is caught
here, returning the zero-confidence record). -/
def parse_classification_response (loads : String → Option JsonVal)
    (response : String) : Except String ClassRecord :=
  match loads (strip_markdown_fence response) with
  | none =>
      Except.ok
        { email_type := JsonVal.str "unknown"
          confidence_score := JsonVal.num 0
          company_name := JsonVal.null
          job_title := JsonVal.null
          sentiment := JsonVal.str "neutral"
          extracted_data := JsonVal.obj []
          error := some "JSON parsing error" }
  | some (JsonVal.obj fields) =>
      Except.ok
        { email_type := (getField fields "email_type").getD (JsonVal.str "unknown")
          confidence_score := (getField fields "confidence_score").getD (JsonVal.str "unknown")
          company_name := (getField fields "company_name").getD JsonVal.null
          job_title := (getField fields "job_title").getD JsonVal.null
          sentiment := (getField fields "sentiment").getD (JsonVal.str "unknown")
          extracted_data := (getField fields "extracted_data").getD (JsonVal.obj [])
          error := none }
  | some _ => Except.error "TypeError: response is not a JSON object"

/-- The zero-confidence record `classify_email`'s `except` clause builds,
with the caught exception's message under `error`. -/
def classifyFallbackRecord (e : String) : ClassRecord :=
  { email_type := JsonVal.str "unknown"
    confidence_score := JsonVal.num 0
    company_name := JsonVal.null
    job_title := JsonVal.null
    sentiment := JsonVal.str "neutral"
    extracted_data := JsonVal.obj []
    error := some e }

/-- `EmailClassifier.classify_email`.  `api_result` is the outcome of the
external `_call_openai` on the prompt built from the three text arguments
(`Except.error` models a raised API exception); every error raised inside the
`try` block — from the API call or from the parser — is caught and turned
into the zero-confidence `unknown` record, so the function is total. -/
def classify_email (loads : String → Option JsonVal)
    (email_content subject sender_email : String)
    (api_result : Except String String) : ClassRecord :=
  match api_result with
  | Except.error e => classifyFallbackRecord e
  | Except.ok response =>
      match parse_classification_response loads response with
      | Except.ok r => r
      | Except.error e => classifyFallbackRecord e

/-- `EmailClassifier.is_job_related`. -/
def is_job_related (email_type : String) (confidence_score : ℚ) : Bool :=
  let job_related_types : List String :=
    ["application_confirmation", "application_rejection", "interview_invitation",
     "offer_letter", "status_update"]
  job_related_types.contains email_type && decide ((6/10 : ℚ) ≤ confidence_score)

/-- `EmailClassifier.should_update_job_status`. -/
def should_update_job_status (email_type : String) (confidence_score : ℚ) : Bool :=
  let status_update_types : List String :=
    ["application_confirmation", "application_rejection", "interview_invitation",
     "offer_letter"]
  status_update_types.contains email_type && decide ((7/10 : ℚ) ≤ confidence_score)

/-! ## Data model (`app/models/job.py`, `app/models/email_models.py`) -/

/-- `JobListing` (the columns the matcher reads).

Modelled from the spec: `app/db/base_class.py`, which defines the declarative
`Base`, is not part of the sources, and the `job_listings` columns listed in
`app/models/job.py` do not include `created_at`; the spec's temporal-proximity
contract ("absolute day difference between job-creation time and
email-received time") reads the job-creation timestamp off the listing, so the
embedded listing carries a nullable `created_at`. -/
structure JobListing where
  id : Nat
  title : String
  company : String
  location : Option String
  created_at : Option ℤ
  deriving DecidableEq

/-- `JobApplication` (the columns the pipeline reads and writes). -/
structure JobApplication where
  user_id : String
  job_id : Nat
  application_status : String
  updated_at : Option ℤ
  deriving DecidableEq

/-- `EmailEvent` (the columns the pipeline reads and writes).
`matched_job_id` mirrors the attribute assigned by
`EmailProcessor._update_job_status`. -/
structure EmailEvent where
  user_id : String
  gmail_connection_id : Nat
  email_message_id : String
  sender_email : String
  sender_name : String
  subject : String
  email_received_at : ℤ
  email_type : String
  confidence_score : ℚ
  company_name : Option String
  matched_job_id : Option Nat
  processed_at : Option ℤ
  status_updated : Bool
  deriving DecidableEq

/-- The database rows visible to the pipeline, in table order. -/
structure DBState where
  listings : List JobListing
  applications : List JobApplication
  events : List EmailEvent
  deriving DecidableEq

/-! ## `app/services/job_matcher.py` -/

/-- `JobMatcher._normalize_company_name`: lowercase, strip one round of
corporate suffixes in a fixed order, drop characters outside `[\w\s]`, and
collapse whitespace. -/
def normalize_company_name (company : String) : String :=
  if company = "" then ""
  else
    let c1 := pyLower company
    let suffixes : List String :=
      [" inc", " corp", " llc", " ltd", " company", " co", " & co"]
    let c2 := suffixes.foldl
      (fun c suf => if pyEndsWith c suf then pyDropRight c suf.data.length else c) c1
    let c3 := String.mk (c2.data.filter
      (fun ch => ch.isAlphanum || ch = '_' || ch.isWhitespace))
    pyJoinSpace (pyWords c3)

/-- `JobMatcher._match_domain`: compare a company name against an email
domain; the trailing TLD is stripped by an anchored regex. -/
def match_domain (job_company : String) (email_company : String) : ℚ :=
  let domain? : Option String :=
    if pyContainsChar email_company '@' then
      some ((pySplitChar '@' email_company).getD 1 "")
    else if pyContainsChar email_company '.' then some email_company
    else none
  match domain? with
  | none => 0
  | some d =>
      let tlds : List String := [".com", ".org", ".net", ".edu", ".gov"]
      let domain := match tlds.find? (fun t => pyEndsWith d t) with
        | some t => pyDropRight d t.data.length
        | none => d
      let job_company_clean := normalize_company_name job_company
      if pySubstr domain job_company_clean || pySubstr job_company_clean domain
      then 8/10 else 0

/-- `JobMatcher._match_company_name`. -/
def match_company_name (ratio : String → String → ℚ)
    (job_company email_company : String) : ℚ :=
  if job_company = "" || email_company = "" then 0
  else
    let job_company_clean := normalize_company_name job_company
    let email_company_clean := normalize_company_name email_company
    if job_company_clean = email_company_clean then 1
    else if pySubstr job_company_clean email_company_clean
         || pySubstr email_company_clean job_company_clean then 9/10
    else
      let similarity := ratio job_company_clean email_company_clean
      if pyContainsChar email_company '@' || pyContainsChar email_company '.' then
        pyMax similarity (match_domain job_company email_company)
      else similarity

/-- `JobMatcher._match_job_title`. -/
def match_job_title (ratio : String → String → ℚ)
    (job_title email_title : String) : ℚ :=
  if job_title = "" || email_title = "" then 0
  else
    let job_title_clean := pyLower job_title
    let email_title_clean := pyLower email_title
    if job_title_clean = email_title_clean then 1
    else if pySubstr job_title_clean email_title_clean
         || pySubstr email_title_clean job_title_clean then 9/10
    else
      let similarity := ratio job_title_clean email_title_clean
      let job_words := pyWordSet job_title_clean
      let email_words := pyWordSet email_title_clean
      if job_words ≠ [] ∧ email_words ≠ [] then
        let common_words := job_words.filter (fun w => email_words.contains w)
        let keyword_score : ℚ :=
          (common_words.length : ℚ) / ((max job_words.length email_words.length : Nat) : ℚ)
        pyMax similarity (keyword_score * (8/10))
      else similarity

/-- `JobMatcher._calculate_temporal_score`.  `(email_date - job_date).days` is
the floored day count of the timedelta. -/
def calculate_temporal_score (job_date email_date : ℤ) : ℚ :=
  let days_diff := |Int.fdiv (email_date - job_date) 86400|
  if days_diff ≤ 1 then 1
  else if days_diff ≤ 7 then 9/10
  else if days_diff ≤ 30 then 7/10
  else if days_diff ≤ 90 then 5/10
  else 2/10

/-- `JobMatcher._match_location`: the placeholder constant. -/
def match_location (job_location : String) (company_name : String) : ℚ := 3/10

/-- `JobMatcher._calculate_match_score`: the weighted sum of the four
sub-signals, built exactly like the source's parallel `scores` / `weights`
lists, clamped by the final `min(total_score, 1.0)`.  `company_name = ""`
doubles for Python's falsy `None`. -/
def calculate_match_score (ratio : String → String → ℚ) (job : JobListing)
    (company_name : String) (job_title : Option String)
    (email_date : Option ℤ) : ℚ :=
  if company_name = "" then 0
  else
    let company_score := match_company_name ratio job.company company_name
    let title_score : ℚ :=
      match job_title with
      | some t => if t ≠ "" ∧ job.title ≠ "" then match_job_title ratio job.title t else 0
      | none => 0
    let time_score : ℚ :=
      match email_date, job.created_at with
      | some e, some c => calculate_temporal_score c e
      | _, _ => 0
    let location_score : ℚ :=
      match job.location with
      | some l => if l ≠ "" then match_location l company_name else 0
      | none => 0
    let scores : List ℚ := [company_score, title_score, time_score, location_score]
    let weights : List ℚ := [4/10, 3/10, 2/10, 1/10]
    let total_score := ((scores.zip weights).map (fun p => p.1 * p.2)).sum
    pyMin total_score 1

/-- The application rows `find_matching_job` treats as candidates: the user's
applications whose status is `interested`, `applied` or `interviewed`. -/
def candidate_applications (db : DBState) (user_id : String) : List JobApplication :=
  db.applications.filter (fun a =>
    a.user_id == user_id &&
    ["interested", "applied", "interviewed"].contains a.application_status)

/-- One step of `find_matching_job`'s loop over the user's applications:
look the listing up (skipping a dangling `job_id`) and keep the score when it
strictly improves on the best so far and clears the 0.6 threshold. -/
def find_matching_job_step (ratio : String → String → ℚ) (db : DBState)
    (company_name : String) (job_title : Option String)
    (email_received_date : Option ℤ)
    (best : Option Nat × ℚ) (application : JobApplication) : Option Nat × ℚ :=
  match db.listings.find? (fun j => j.id == application.job_id) with
  | none => best
  | some job =>
      let score := calculate_match_score ratio job company_name job_title email_received_date
      if best.2 < score ∧ (6/10 : ℚ) ≤ score then (some job.id, score) else best

/-- The tail of `find_matching_job`: Python's
`if best_match: return (best_match, best_score) else return None`, where
`if best_match:` is truthiness on `Optional[int]` — a best match with job
id `0` is treated like `None`. -/
def find_matching_job_finish (r : Option Nat × ℚ) : Option (Nat × ℚ) :=
  match r.1 with
  | some best_match => if best_match ≠ 0 then some (best_match, r.2) else none
  | none => none

/-- `JobMatcher.find_matching_job`. -/
def find_matching_job (ratio : String → String → ℚ) (db : DBState)
    (user_id : String) (company_name : String) (job_title : Option String)
    (email_received_date : Option ℤ) : Option (Nat × ℚ) :=
  if (candidate_applications db user_id).isEmpty then none
  else
    find_matching_job_finish
      ((candidate_applications db user_id).foldl
        (find_matching_job_step ratio db company_name job_title email_received_date)
        (none, 0))

/-- `JobMatcher.should_auto_update_status` (`high_confidence_threshold = 0.8`). -/
def should_auto_update_status (confidence_score : ℚ) : Bool :=
  decide ((8/10 : ℚ) ≤ confidence_score)

/-- `JobMatcher.get_status_update_mapping`. -/
def get_status_update_mapping (email_type : String) : Option String :=
  if email_type = "application_confirmation" then some "applied"
  else if email_type = "application_rejection" then some "rejected"
  else if email_type = "interview_invitation" then some "interviewed"
  else if email_type = "offer_letter" then some "hired"
  else none

/-! ## `app/services/email_processor.py` -/

/-- A fetched Gmail message as the processor reads it (`email.get(...)`
defaults folded in; `received_date` is `none` when the key is absent). -/
structure Email where
  id : String
  subject : String
  sender_email : String
  sender_name : String
  content : String
  received_date : Option ℤ
  deriving DecidableEq

/-- The classification dict fields the processor reads, in the well-typed
shape the classifier's taxonomy promises (`company_name` / `job_title` may be
JSON `null`). -/
structure Classification where
  email_type : String
  confidence_score : ℚ
  company_name : Option String
  job_title : Option String
  deriving DecidableEq

/-- The `processed` / `status_updated` flags of
`EmailProcessor._process_single_email`'s result dict. -/
structure ProcResult where
  processed : Bool
  status_updated : Bool
  deriving DecidableEq

/-- Replace the first element satisfying `p` (SQLAlchemy `.first()` followed
by a mutation of that row). -/
def update_first {α : Type} (l : List α) (p : α → Bool) (f : α → α) : List α :=
  match l with
  | [] => []
  | x :: xs => if p x then f x :: xs else x :: update_first xs p f

/-- `EmailProcessor._update_job_status`: match a job, gate on the 0.8
auto-update threshold, map the email type to a status and write it to the
first `(user_id, job_id)` application row; returns whether a status was
written, together with the updated database. -/
def update_job_status (ratio : String → String → ℚ) (now : ℤ) (db : DBState)
    (email_event : EmailEvent) (classification : Classification)
    (user_id : String) : Bool × DBState :=
  match find_matching_job ratio db user_id (classification.company_name.getD "")
      classification.job_title (some email_event.email_received_at) with
  | none => (false, db)
  | some (job_id, confidence_score) =>
      if ¬ should_auto_update_status confidence_score then (false, db)
      else
        match get_status_update_mapping classification.email_type with
        | none => (false, db)
        | some new_status =>
            match db.applications.find?
                (fun a => a.user_id == user_id && a.job_id == job_id) with
            | none => (false, db)
            | some _ =>
                let applications := update_first db.applications
                  (fun a => a.user_id == user_id && a.job_id == job_id)
                  (fun a => { a with application_status := new_status,
                                     updated_at := some now })
                let events := update_first db.events
                  (fun e => e.email_message_id == email_event.email_message_id)
                  (fun e => { e with matched_job_id := some job_id })
                (true, { db with applications := applications, events := events })

/-- `EmailProcessor._process_single_email`.  `classify` stands for the
classifier's output on this email (the awaited `classify_email` call), `now`
for `datetime.utcnow()`.  Skips an already-seen `email_message_id`, drops
non-job-related mail before any write, otherwise persists an `EmailEvent` and
possibly updates a job status. -/
def process_single_email (ratio : String → String → ℚ)
    (classify : Email → Classification) (now : ℤ) (db : DBState)
    (user_id : String) (email : Email) : ProcResult × DBState :=
  if db.events.any (fun ev => ev.email_message_id == email.id) then
    ({ processed := false, status_updated := false }, db)
  else
    let received_date := email.received_date.getD now
    let classification := classify email
    if ¬ is_job_related classification.email_type classification.confidence_score then
      ({ processed := false, status_updated := false }, db)
    else
      let email_event : EmailEvent :=
        { user_id := user_id
          gmail_connection_id := 1
          email_message_id := email.id
          sender_email := email.sender_email
          sender_name := email.sender_name
          subject := email.subject
          email_received_at := received_date
          email_type := classification.email_type
          confidence_score := classification.confidence_score
          company_name := classification.company_name
          matched_job_id := none
          processed_at := none
          status_updated := false }
      let db1 : DBState := { db with events := db.events ++ [email_event] }
      let step :=
        if should_update_job_status classification.email_type
            classification.confidence_score then
          update_job_status ratio now db1 email_event classification user_id
        else (false, db1)
      let db2 := step.2
      let db3 : DBState := { db2 with
        events := update_first db2.events
          (fun e => e.email_message_id == email.id)
          (fun e => { e with processed_at := some now, status_updated := step.1 }) }
      ({ processed := true, status_updated := step.1 }, db3)

/-! ## Spec-side definitions used to state the claims -/

/-- The `(job id, match score)` pairs of the candidate applications — the
population `find_matching_job` selects from. -/
def candidate_pairs (ratio : String → String → ℚ) (db : DBState)
    (user_id : String) (company_name : String) (job_title : Option String)
    (email_received_date : Option ℤ) : List (Nat × ℚ) :=
  (candidate_applications db user_id).filterMap (fun a =>
    (db.listings.find? (fun j => j.id == a.job_id)).map (fun job =>
      (job.id, calculate_match_score ratio job company_name job_title email_received_date)))

/-- The selection contract of claim C1: the returned pair is a candidate of
maximal score at or above 0.6; `none` means no candidate reaches 0.6. -/
def FindSpec (pairs : List (Nat × ℚ)) : Option (Nat × ℚ) → Prop
  | some (j, s) => (j, s) ∈ pairs ∧ (6/10 : ℚ) ≤ s ∧ ∀ p ∈ pairs, p.2 ≤ s
  | none => ∀ p ∈ pairs, p.2 < (6/10 : ℚ)

instance FindSpec.instDec (pairs : List (Nat × ℚ)) :
    (r : Option (Nat × ℚ)) → Decidable (FindSpec pairs r)
  | none => inferInstanceAs (Decidable (∀ p ∈ pairs, p.2 < (6/10 : ℚ)))
  | some (j, s) =>
      inferInstanceAs (Decidable ((j, s) ∈ pairs ∧ (6/10 : ℚ) ≤ s ∧ ∀ p ∈ pairs, p.2 ≤ s))

/-- The Jaccard index of two finite word sets (here: duplicate-free lists),
`|A ∩ B| / |A ∪ B|` — the textbook reading of the spec's "Jaccard overlap". -/
def specJaccard (a b : List String) : ℚ :=
  ((a.filter (fun w => b.contains w)).length : ℚ) /
    (((a ++ b.filter (fun w => ¬ a.contains w)).length : Nat) : ℚ)

/-- The position of a status in the progression
`interested → applied → interviewed → (rejected | hired)` of claim C9. -/
def statusRank (status : String) : Nat :=
  if status = "interested" then 0
  else if status = "applied" then 1
  else if status = "interviewed" then 2
  else 3

/-- The five classifier types the source's `job_related_types` list holds. -/
def jobRelatedTypes : List String :=
  ["application_confirmation", "application_rejection", "interview_invitation",
   "offer_letter", "status_update"]

/-- The zero-confidence `unknown` record's six promised fields (the claims
leave the diagnostic `error` key unconstrained). -/
def unknownRecordFields (r : ClassRecord) : Prop :=
  r.email_type = JsonVal.str "unknown" ∧
  r.confidence_score = JsonVal.num 0 ∧
  r.company_name = JsonVal.null ∧
  r.job_title = JsonVal.null ∧
  r.sentiment = JsonVal.str "neutral" ∧
  r.extracted_data = JsonVal.obj []

/-- A trivial stand-in for `SequenceMatcher.ratio`, used to instantiate
universally quantified theorems at concrete inputs. -/
def zeroRatio : String → String → ℚ := fun a b => 0

lemma zeroRatio_bounded : RatioBounded zeroRatio :=
  fun a b => ⟨le_refl 0, by norm_num [zeroRatio]⟩

/-! ## Theorems -/

/-- C3 (amended): `is_job_related(type, confidence)` is true exactly when the
type is one of the five `job_related_types` and the confidence is at least
0.6; any confidence below 0.6 makes it false, and type `not_job_related` is
always false. -/
theorem c3_is_job_related_iff (email_type : String) (confidence_score : ℚ) :
    (is_job_related email_type confidence_score = true ↔
      email_type ∈ jobRelatedTypes ∧ (6/10 : ℚ) ≤ confidence_score) ∧
    (confidence_score < 6/10 → is_job_related email_type confidence_score = false) ∧
    is_job_related "not_job_related" confidence_score = false := by
  have hiff : is_job_related email_type confidence_score = true ↔
      email_type ∈ jobRelatedTypes ∧ (6/10 : ℚ) ≤ confidence_score := by
    simp [is_job_related, jobRelatedTypes, List.contains]
  refine ⟨hiff, fun hlt => ?_, ?_⟩
  · cases hb : is_job_related email_type confidence_score
    · rfl
    · exact absurd (hiff.mp hb).2 (not_le.mpr hlt)
  · cases hb : is_job_related "not_job_related" confidence_score
    · rfl
    · have hmem :
          ("not_job_related" : String) ∈ jobRelatedTypes ∧
            (6/10 : ℚ) ≤ confidence_score := by
        have h' : is_job_related "not_job_related" confidence_score = true ↔
            ("not_job_related" : String) ∈ jobRelatedTypes ∧
              (6/10 : ℚ) ≤ confidence_score := by
          simp [is_job_related, jobRelatedTypes, List.contains]
        exact h'.mp hb
      exact absurd hmem.1 (by decide)

unseal Rat.mul Rat.inv Rat.add Rat.sub Rat.ofScientific in
/-- C3 counterexample: as literally stated the claim demands
`is_job_related` be true for any type other than `not_job_related` at
confidence 0.9, but the classifier's own failure type `unknown` (not in the
five-type allowlist) yields false. -/
theorem c3_counterexample :
    is_job_related "unknown" (9/10) = false ∧
    (6/10 : ℚ) ≤ 9/10 ∧ ("unknown" : String) ≠ "not_job_related" := by
  refine ⟨by decide, by decide, by decide⟩

/-- C3 witness: a claim instance evaluated concretely — confidence 0.5 is
below 0.6, so even the status-bearing type `status_update` is not job
related. -/
theorem c3_witness : is_job_related "status_update" (5/10) = false :=
  (c3_is_job_related_iff "status_update" (5/10)).2.1 (by norm_num)

/-- C5: the temporal-proximity sub-score is determined by the absolute day
difference (Python's floored `timedelta.days`) through the buckets
`≤1 → 1.0`, `≤7 → 0.9`, `≤30 → 0.7`, `≤90 → 0.5`, else `0.2`. -/
theorem c5_temporal_buckets (job_date email_date : ℤ) :
    (|Int.fdiv (email_date - job_date) 86400| ≤ 1 →
      calculate_temporal_score job_date email_date = 1) ∧
    (1 < |Int.fdiv (email_date - job_date) 86400| →
      |Int.fdiv (email_date - job_date) 86400| ≤ 7 →
      calculate_temporal_score job_date email_date = 9/10) ∧
    (7 < |Int.fdiv (email_date - job_date) 86400| →
      |Int.fdiv (email_date - job_date) 86400| ≤ 30 →
      calculate_temporal_score job_date email_date = 7/10) ∧
    (30 < |Int.fdiv (email_date - job_date) 86400| →
      |Int.fdiv (email_date - job_date) 86400| ≤ 90 →
      calculate_temporal_score job_date email_date = 5/10) ∧
    (90 < |Int.fdiv (email_date - job_date) 86400| →
      calculate_temporal_score job_date email_date = 2/10) := by
  refine ⟨fun h1 => ?_, fun h1 h2 => ?_, fun h1 h2 => ?_, fun h1 h2 => ?_, fun h1 => ?_⟩ <;>
    simp only [calculate_temporal_score] <;> split_ifs <;> first | rfl | linarith

/-- C5 witness: the spec's scenario — a 95-day distance (here in seconds)
yields exactly 0.2. -/
theorem c5_witness : calculate_temporal_score 0 (95 * 86400) = 2/10 :=
  (c5_temporal_buckets 0 (95 * 86400)).2.2.2.2 (by decide)

/-- C6: `classify_email` is total, and on an API failure, or on a reply whose
stripped text `json.loads` cannot parse, it returns the zero-confidence
`unknown` record (type `unknown`, confidence 0.0, null company and title,
neutral sentiment, empty extracted data) instead of propagating the error. -/
theorem c6_classify_email_error_fallback (loads : String → Option JsonVal)
    (email_content subject sender_email : String) :
    (∀ err : String, unknownRecordFields
        (classify_email loads email_content subject sender_email (Except.error err))) ∧
    (∀ reply : String, loads (strip_markdown_fence reply) = none →
      unknownRecordFields
        (classify_email loads email_content subject sender_email (Except.ok reply))) := by
  constructor
  · intro err
    exact ⟨rfl, rfl, rfl, rfl, rfl, rfl⟩
  · intro reply h
    have hp : parse_classification_response loads reply =
        Except.ok { email_type := JsonVal.str "unknown"
                    confidence_score := JsonVal.num 0
                    company_name := JsonVal.null
                    job_title := JsonVal.null
                    sentiment := JsonVal.str "neutral"
                    extracted_data := JsonVal.obj []
                    error := some "JSON parsing error" } := by
      unfold parse_classification_response
      rw [h]
    simp only [classify_email, hp]
    exact ⟨rfl, rfl, rfl, rfl, rfl, rfl⟩

/-- C6 witness: evaluated at an always-failing `json.loads` and at a raised
API error. -/
theorem c6_witness :
    unknownRecordFields
      (classify_email (fun s => none) "body" "subject" "sender@x.com"
        (Except.ok "not json")) ∧
    unknownRecordFields
      (classify_email (fun s => none) "body" "subject" "sender@x.com"
        (Except.error "APIError")) :=
  ⟨(c6_classify_email_error_fallback (fun s => none) "body" "subject" "sender@x.com").2
      "not json" rfl,
   (c6_classify_email_error_fallback (fun s => none) "body" "subject" "sender@x.com").1
      "APIError"⟩

/-- C7: processing is idempotent per email message id — when an `EmailEvent`
with the email's message id already exists, `_process_single_email` leaves
the database untouched and reports the email as not processed. -/
theorem c7_process_single_email_idempotent (ratio : String → String → ℚ)
    (classify : Email → Classification) (now : ℤ) (db : DBState)
    (user_id : String) (email : Email)
    (h : db.events.any (fun ev => ev.email_message_id == email.id) = true) :
    process_single_email ratio classify now db user_id email =
      ({ processed := false, status_updated := false }, db) := by
  unfold process_single_email
  rw [if_pos h]

/-- C10: whenever the LLM reply parses as a JSON object, the record returned
by `classify_email` carries the six promised keys, with `null` defaults for
a missing company or title, the empty object for missing extracted data, and
the *string* `"unknown"` for any other missing required field — including
`confidence_score`. -/
theorem c10_parse_object_defaults (loads : String → Option JsonVal)
    (email_content subject sender_email reply : String)
    (fields : List (String × JsonVal))
    (h : loads (strip_markdown_fence reply) = some (JsonVal.obj fields)) :
    (classify_email loads email_content subject sender_email (Except.ok reply)).email_type
        = (getField fields "email_type").getD (JsonVal.str "unknown") ∧
    (classify_email loads email_content subject sender_email (Except.ok reply)).confidence_score
        = (getField fields "confidence_score").getD (JsonVal.str "unknown") ∧
    (classify_email loads email_content subject sender_email (Except.ok reply)).company_name
        = (getField fields "company_name").getD JsonVal.null ∧
    (classify_email loads email_content subject sender_email (Except.ok reply)).job_title
        = (getField fields "job_title").getD JsonVal.null ∧
    (classify_email loads email_content subject sender_email (Except.ok reply)).sentiment
        = (getField fields "sentiment").getD (JsonVal.str "unknown") ∧
    (classify_email loads email_content subject sender_email (Except.ok reply)).extracted_data
        = (getField fields "extracted_data").getD (JsonVal.obj []) := by
  have hp : parse_classification_response loads reply =
      Except.ok { email_type := (getField fields "email_type").getD (JsonVal.str "unknown")
                  confidence_score := (getField fields "confidence_score").getD (JsonVal.str "unknown")
                  company_name := (getField fields "company_name").getD JsonVal.null
                  job_title := (getField fields "job_title").getD JsonVal.null
                  sentiment := (getField fields "sentiment").getD (JsonVal.str "unknown")
                  extracted_data := (getField fields "extracted_data").getD (JsonVal.obj [])
                  error := none } := by
    unfold parse_classification_response
    rw [h]
  refine ⟨?_, ?_, ?_, ?_, ?_, ?_⟩ <;> simp [classify_email, hp]

/-- C10 witness: on the empty JSON object every default fires; in particular
the returned `confidence_score` is the string `"unknown"`, not a number. -/
theorem c10_witness :
    (classify_email (fun s => some (JsonVal.obj [])) "body" "subject" "sender@x.com"
        (Except.ok "reply")).confidence_score = JsonVal.str "unknown" ∧
    (classify_email (fun s => some (JsonVal.obj [])) "body" "subject" "sender@x.com"
        (Except.ok "reply")).company_name = JsonVal.null :=
  ⟨(c10_parse_object_defaults (fun s => some (JsonVal.obj [])) "body" "subject"
      "sender@x.com" "reply" [] rfl).2.1,
   (c10_parse_object_defaults (fun s => some (JsonVal.obj [])) "body" "subject"
      "sender@x.com" "reply" [] rfl).2.2.1⟩

/-- C7 witness inputs: one already-recorded event for message id `m1`. -/
def c7event : EmailEvent :=
  { user_id := "u", gmail_connection_id := 1, email_message_id := "m1"
    sender_email := "jobs@corp.com", sender_name := "Corp", subject := "re"
    email_received_at := 0, email_type := "unknown", confidence_score := 0
    company_name := none, matched_job_id := none, processed_at := none
    status_updated := false }

def c7db : DBState := { listings := [], applications := [], events := [c7event] }

def c7email : Email :=
  { id := "m1", subject := "re", sender_email := "jobs@corp.com"
    sender_name := "Corp", content := "body", received_date := some 0 }

def c7classify : Email → Classification := fun e =>
  { email_type := "application_confirmation", confidence_score := 1
    company_name := some "Corp", job_title := none }

/-- C7 witness: re-processing message id `m1` is a no-op skip. -/
theorem c7_witness :
    process_single_email zeroRatio c7classify 0 c7db "u" c7email =
      ({ processed := false, status_updated := false }, c7db) :=
  c7_process_single_email_idempotent zeroRatio c7classify 0 c7db "u" c7email (by decide)

lemma is_job_related_not_job_related (confidence_score : ℚ) :
    is_job_related "not_job_related" confidence_score = false := by
  show ((["application_confirmation", "application_rejection", "interview_invitation",
      "offer_letter", "status_update"] : List String).contains "not_job_related"
      && decide ((6/10 : ℚ) ≤ confidence_score)) = false
  rw [show (["application_confirmation", "application_rejection", "interview_invitation",
      "offer_letter", "status_update"] : List String).contains "not_job_related" = false
      from by decide]
  exact Bool.false_and _

/-- C8: an email classified `not_job_related` — at any confidence — leaves
the database untouched: the processor returns before the event write and the
status-update step. -/
theorem c8_not_job_related_no_mutation (ratio : String → String → ℚ)
    (classify : Email → Classification) (now : ℤ) (db : DBState)
    (user_id : String) (email : Email)
    (h : (classify email).email_type = "not_job_related") :
    (process_single_email ratio classify now db user_id email).2 = db ∧
    (process_single_email ratio classify now db user_id email).1.status_updated = false := by
  unfold process_single_email
  by_cases hseen : db.events.any (fun ev => ev.email_message_id == email.id) = true
  · rw [if_pos hseen]
    exact ⟨rfl, rfl⟩
  · rw [if_neg hseen]
    have hg : is_job_related (classify email).email_type (classify email).confidence_score
        = false := by
      rw [h]; exact is_job_related_not_job_related _
    simp [hg]

/-- C8 witness inputs: a user with one open application, and an email the
classifier marks `not_job_related` with confidence 0.99. -/
def c8db : DBState :=
  { listings := [{ id := 1, title := "Engineer", company := "Google"
                   location := none, created_at := some 0 }]
    applications := [{ user_id := "u", job_id := 1
                       application_status := "interested", updated_at := none }]
    events := [] }

def c8email : Email :=
  { id := "m8", subject := "sale", sender_email := "promo@spam.com"
    sender_name := "Promo", content := "buy now", received_date := some 0 }

def c8classify : Email → Classification := fun e =>
  { email_type := "not_job_related", confidence_score := 99/100
    company_name := some "Google", job_title := some "Engineer" }

/-- C8 witness: the 0.99-confidence `not_job_related` email mutates nothing. -/
theorem c8_witness :
    (process_single_email zeroRatio c8classify 0 c8db "u" c8email).2 = c8db ∧
    (process_single_email zeroRatio c8classify 0 c8db "u" c8email).1.status_updated
      = false :=
  c8_not_job_related_no_mutation zeroRatio c8classify 0 c8db "u" c8email rfl

/-- Invariant carried through `find_matching_job`'s loop: the accumulator is
`(none, 0)` while every candidate seen so far scores below 0.6, and otherwise
holds a seen candidate of maximal score at or above 0.6. -/
def FoldInv (pairs : List (Nat × ℚ)) (acc : Option Nat × ℚ) : Prop :=
  (acc.1 = none → acc.2 = 0 ∧ ∀ p ∈ pairs, p.2 < 6/10) ∧
  (∀ j : Nat, acc.1 = some j →
    (j, acc.2) ∈ pairs ∧ (6/10 : ℚ) ≤ acc.2 ∧ ∀ p ∈ pairs, p.2 ≤ acc.2)

lemma foldInv_update (seen : List (Nat × ℚ)) (acc : Option Nat × ℚ)
    (jid : Nat) (s : ℚ) (hinv : FoldInv seen acc) :
    FoldInv (seen ++ [(jid, s)])
      (if acc.2 < s ∧ (6/10 : ℚ) ≤ s then (some jid, s) else acc) := by
  obtain ⟨hnone, hsome⟩ := hinv
  by_cases hcond : acc.2 < s ∧ (6/10 : ℚ) ≤ s
  · rw [if_pos hcond]
    constructor
    · intro habs
      exact absurd habs (by simp)
    · intro j hj
      have hjj : jid = j := by simpa using hj
      subst hjj
      refine ⟨by simp, hcond.2, ?_⟩
      intro p hp
      rcases List.mem_append.mp hp with hmem | hmem
      · cases hacc : acc.1 with
        | none =>
            have h1 := (hnone hacc).2 p hmem
            exact le_of_lt (lt_of_lt_of_le h1 hcond.2)
        | some j0 =>
            have h1 := (hsome j0 hacc).2.2 p hmem
            exact le_of_lt (lt_of_le_of_lt h1 hcond.1)
      · have : p = (jid, s) := by simpa using hmem
        simp [this]
  · rw [if_neg hcond]
    constructor
    · intro hacc
      obtain ⟨h0, hall⟩ := hnone hacc
      refine ⟨h0, ?_⟩
      intro p hp
      rcases List.mem_append.mp hp with hmem | hmem
      · exact hall p hmem
      · have hps : p = (jid, s) := by simpa using hmem
        subst hps
        by_contra hge
        push_neg at hge
        exact hcond ⟨by rw [h0]; linarith, hge⟩
    · intro j hj
      obtain ⟨hmem, hge, hall⟩ := hsome j hj
      refine ⟨List.mem_append_left _ hmem, hge, ?_⟩
      intro p hp
      rcases List.mem_append.mp hp with hm | hm
      · exact hall p hm
      · have hps : p = (jid, s) := by simpa using hm
        subst hps
        by_contra hlt
        push_neg at hlt
        exact hcond ⟨hlt, le_trans hge (le_of_lt hlt)⟩

lemma find_fold_inv (ratio : String → String → ℚ) (db : DBState)
    (company_name : String) (job_title : Option String)
    (email_received_date : Option ℤ) (apps : List JobApplication) :
    ∀ (acc : Option Nat × ℚ) (seen : List (Nat × ℚ)),
      FoldInv seen acc →
      FoldInv
        (seen ++ apps.filterMap (fun a =>
          (db.listings.find? (fun j => j.id == a.job_id)).map (fun job =>
            (job.id,
              calculate_match_score ratio job company_name job_title email_received_date))))
        (apps.foldl
          (find_matching_job_step ratio db company_name job_title email_received_date)
          acc) := by
  induction apps with
  | nil =>
      intro acc seen hinv
      simpa using hinv
  | cons a apps ih =>
      intro acc seen hinv
      rw [List.foldl_cons, List.filterMap_cons]
      cases hfind : db.listings.find? (fun j => j.id == a.job_id) with
      | none =>
          have hstep :
              find_matching_job_step ratio db company_name job_title email_received_date
                acc a = acc := by
            unfold find_matching_job_step
            rw [hfind]
          rw [hstep]
          exact ih acc seen hinv
      | some job =>
          have hstep :
              find_matching_job_step ratio db company_name job_title email_received_date
                acc a =
              (if acc.2 < calculate_match_score ratio job company_name job_title
                    email_received_date ∧
                  (6/10 : ℚ) ≤ calculate_match_score ratio job company_name job_title
                    email_received_date
               then (some job.id,
                  calculate_match_score ratio job company_name job_title email_received_date)
               else acc) := by
            unfold find_matching_job_step
            rw [hfind]
          rw [hstep]
          show FoldInv (seen ++ ((job.id, calculate_match_score ratio job company_name
              job_title email_received_date) :: List.filterMap _ apps)) _
          rw [← List.singleton_append, ← List.append_assoc]
          exact ih _ _ (foldInv_update seen acc job.id _ hinv)

lemma findSpec_finish (pairs : List (Nat × ℚ)) (r : Option Nat × ℚ)
    (hinv : FoldInv pairs r) (hid : ∀ p ∈ pairs, p.1 ≠ 0) :
    FindSpec pairs (find_matching_job_finish r) := by
  obtain ⟨o, s⟩ := r
  obtain ⟨hnone, hsome⟩ := hinv
  cases o with
  | none =>
      intro p hp
      exact (hnone rfl).2 p hp
  | some j =>
      have hj := hsome j rfl
      have hjne : j ≠ 0 := hid _ hj.1
      show FindSpec pairs (if j ≠ 0 then some (j, s) else none)
      rw [if_pos hjne]
      exact hj

/-- C1 (amended): provided no candidate job listing has id 0 (the source's
final `if best_match:` truthiness check confuses job id 0 with "no match"),
`find_matching_job` returns a candidate pair of maximal score when some
candidate reaches the 0.6 threshold, and `none` — never a sub-0.6 job — when
none does; candidates are exactly the user's applications with status
`interested`, `applied` or `interviewed`. -/
theorem c1_find_matching_job_selects_best (ratio : String → String → ℚ)
    (db : DBState) (user_id : String) (company_name : String)
    (job_title : Option String) (email_received_date : Option ℤ)
    (hid : ∀ p ∈ candidate_pairs ratio db user_id company_name job_title
      email_received_date, p.1 ≠ 0) :
    FindSpec (candidate_pairs ratio db user_id company_name job_title email_received_date)
      (find_matching_job ratio db user_id company_name job_title email_received_date) := by
  unfold find_matching_job
  by_cases hemp : (candidate_applications db user_id).isEmpty
  · rw [if_pos hemp]
    have hnil : candidate_applications db user_id = [] := by
      simpa [List.isEmpty_iff] using hemp
    show FindSpec (candidate_pairs ratio db user_id company_name job_title
      email_received_date) none
    unfold candidate_pairs
    rw [hnil]
    intro p hp
    exact absurd hp (List.not_mem_nil p)
  · rw [if_neg hemp]
    have hinv := find_fold_inv ratio db company_name job_title email_received_date
      (candidate_applications db user_id) (none, 0) []
      ⟨fun _ => ⟨rfl, fun p hp => absurd hp (List.not_mem_nil p)⟩,
       fun j hj => by cases hj⟩
    rw [List.nil_append] at hinv
    exact findSpec_finish _ _ hinv hid

/-- C1 witness inputs: one open application at a listing (id 1) matching the
email's company and title exactly, received the day the listing was created. -/
def c1db : DBState :=
  { listings := [{ id := 1, title := "Engineer", company := "Google"
                   location := none, created_at := some 0 }]
    applications := [{ user_id := "u", job_id := 1
                       application_status := "interested", updated_at := none }]
    events := [] }

unseal Rat.mul Rat.inv Rat.add Rat.sub Rat.ofScientific in
/-- C1 witness: on `c1db` the matcher returns the unique candidate, whose
score 0.9 clears the threshold. -/
theorem c1_witness :
    FindSpec (candidate_pairs zeroRatio c1db "u" "Google" (some "Engineer") (some 0))
      (find_matching_job zeroRatio c1db "u" "Google" (some "Engineer") (some 0)) :=
  c1_find_matching_job_selects_best zeroRatio c1db "u" "Google" (some "Engineer") (some 0)
    (by decide)

/-- C1 counterexample inputs: the same scenario with listing id 0. -/
def c1dbZeroId : DBState :=
  { listings := [{ id := 0, title := "Engineer", company := "Google"
                   location := none, created_at := some 0 }]
    applications := [{ user_id := "u", job_id := 0
                       application_status := "interested", updated_at := none }]
    events := [] }

unseal Rat.mul Rat.inv Rat.add Rat.sub Rat.ofScientific in
/-- C1 counterexample: the candidate at job id 0 scores 0.9 ≥ 0.6, yet
`find_matching_job` returns `none` (the `if best_match:` truthiness check),
so the claim's selection contract fails as stated. -/
theorem c1_counterexample :
    find_matching_job zeroRatio c1dbZeroId "u" "Google" (some "Engineer") (some 0)
      = none ∧
    candidate_pairs zeroRatio c1dbZeroId "u" "Google" (some "Engineer") (some 0)
      = [(0, 9/10)] ∧
    ¬ FindSpec (candidate_pairs zeroRatio c1dbZeroId "u" "Google" (some "Engineer") (some 0))
        (find_matching_job zeroRatio c1dbZeroId "u" "Google" (some "Engineer") (some 0)) :=
  ⟨by decide, by decide, by decide⟩

lemma pyMax_bounds {a b : ℚ} (h0a : 0 ≤ a) (h0b : 0 ≤ b) (h1a : a ≤ 1) (h1b : b ≤ 1) :
    0 ≤ pyMax a b ∧ pyMax a b ≤ 1 := by
  unfold pyMax
  split_ifs <;> exact ⟨by assumption, by assumption⟩

lemma pyMin_one_bounds (a : ℚ) (ha : 0 ≤ a) : 0 ≤ pyMin a 1 ∧ pyMin a 1 ≤ 1 := by
  unfold pyMin
  split_ifs with hlt
  · norm_num
  · exact ⟨ha, by linarith⟩

lemma match_domain_cases (jc ec : String) :
    match_domain jc ec = 8/10 ∨ match_domain jc ec = 0 := by
  simp only [match_domain]
  split
  · exact Or.inr rfl
  · split_ifs
    · exact Or.inl rfl
    · exact Or.inr rfl

lemma match_company_name_bounds (ratio : String → String → ℚ)
    (h : RatioBounded ratio) (jc ec : String) :
    0 ≤ match_company_name ratio jc ec ∧ match_company_name ratio jc ec ≤ 1 := by
  simp only [match_company_name]
  split_ifs
  · norm_num
  · norm_num
  · norm_num
  · have hr := h (normalize_company_name jc) (normalize_company_name ec)
    have hmd : 0 ≤ match_domain jc ec ∧ match_domain jc ec ≤ 1 := by
      rcases match_domain_cases jc ec with hd | hd <;> rw [hd] <;> norm_num
    exact pyMax_bounds hr.1 hmd.1 hr.2 hmd.2
  · exact h _ _

lemma keyword_score_bounds (cw jw ew : Nat) (hcw : cw ≤ jw) (hjw : 1 ≤ jw) :
    0 ≤ ((cw : ℚ) / ((max jw ew : Nat) : ℚ)) ∧
    ((cw : ℚ) / ((max jw ew : Nat) : ℚ)) ≤ 1 := by
  have hmax1 : (1 : ℚ) ≤ ((max jw ew : Nat) : ℚ) := by
    exact_mod_cast le_trans hjw (le_max_left _ _)
  constructor
  · positivity
  · rw [div_le_one (by linarith)]
    exact_mod_cast le_trans hcw (le_max_left _ _)

lemma match_job_title_bounds (ratio : String → String → ℚ)
    (h : RatioBounded ratio) (jt et : String) :
    0 ≤ match_job_title ratio jt et ∧ match_job_title ratio jt et ≤ 1 := by
  simp only [match_job_title]
  split_ifs with h1 h2 h3 h4
  · norm_num
  · norm_num
  · norm_num
  · have hr := h (pyLower jt) (pyLower et)
    have hjw : 1 ≤ (pyWordSet (pyLower jt)).length :=
      List.length_pos.mpr h4.1
    have hks := keyword_score_bounds
      ((pyWordSet (pyLower jt)).filter
        (fun w => (pyWordSet (pyLower et)).contains w)).length
      (pyWordSet (pyLower jt)).length (pyWordSet (pyLower et)).length
      (List.length_filter_le _ _) hjw
    have h2nn : 0 ≤ (((pyWordSet (pyLower jt)).filter
        (fun w => (pyWordSet (pyLower et)).contains w)).length : ℚ) /
        ((max (pyWordSet (pyLower jt)).length (pyWordSet (pyLower et)).length : Nat) : ℚ)
        * (8/10) := by
      have := hks.1
      nlinarith
    have h2le : (((pyWordSet (pyLower jt)).filter
        (fun w => (pyWordSet (pyLower et)).contains w)).length : ℚ) /
        ((max (pyWordSet (pyLower jt)).length (pyWordSet (pyLower et)).length : Nat) : ℚ)
        * (8/10) ≤ 1 := by
      have := hks.2
      nlinarith [hks.1]
    exact pyMax_bounds hr.1 h2nn hr.2 h2le
  · exact h _ _

lemma calculate_temporal_score_bounds (c e : ℤ) :
    0 ≤ calculate_temporal_score c e ∧ calculate_temporal_score c e ≤ 1 := by
  simp only [calculate_temporal_score]
  split_ifs <;> norm_num

lemma title_term_nonneg (ratio : String → String → ℚ) (h : RatioBounded ratio)
    (jt : String) (job_title : Option String) :
    0 ≤ (match job_title with
      | some t => if t ≠ "" ∧ jt ≠ "" then match_job_title ratio jt t else 0
      | none => 0) := by
  cases job_title with
  | none => norm_num
  | some t =>
      show 0 ≤ if t ≠ "" ∧ jt ≠ "" then match_job_title ratio jt t else 0
      split_ifs with ht
      · exact (match_job_title_bounds ratio h jt t).1
      · norm_num

lemma time_term_nonneg (email_date created_at : Option ℤ) :
    0 ≤ (match email_date, created_at with
      | some e, some c => calculate_temporal_score c e
      | _, _ => 0) := by
  cases email_date with
  | none => norm_num
  | some e =>
      cases created_at with
      | none => norm_num
      | some c => exact (calculate_temporal_score_bounds c e).1

lemma loc_term_nonneg (location : Option String) (company_name : String) :
    0 ≤ (match location with
      | some l => if l ≠ "" then match_location l company_name else 0
      | none => 0) := by
  cases location with
  | none => norm_num
  | some l =>
      show 0 ≤ if l ≠ "" then match_location l company_name else 0
      split_ifs
      · norm_num [match_location]
      · norm_num

/-- C2: for a non-empty company name the match score is exactly the weighted
sum `0.4·company + 0.3·title + 0.2·temporal + 0.1·location` clamped to 1.0,
each absent sub-signal (missing/empty email or job title, missing dates,
missing/empty job location) contributing 0 at its weight; the result lies in
`[0, 1]`, and the location sub-score is the constant placeholder 0.3 whenever
the job has a location. -/
theorem c2_match_score_weighted_sum (ratio : String → String → ℚ)
    (h : RatioBounded ratio) (job : JobListing) (company_name : String)
    (job_title : Option String) (email_date : Option ℤ)
    (hc : company_name ≠ "") :
    calculate_match_score ratio job company_name job_title email_date =
      pyMin (match_company_name ratio job.company company_name * (4/10)
        + (match job_title with
            | some t =>
                if t ≠ "" ∧ job.title ≠ "" then match_job_title ratio job.title t else 0
            | none => 0) * (3/10)
        + (match email_date, job.created_at with
            | some e, some c => calculate_temporal_score c e
            | _, _ => 0) * (2/10)
        + (match job.location with
            | some l => if l ≠ "" then match_location l company_name else 0
            | none => 0) * (1/10)) 1 ∧
    0 ≤ calculate_match_score ratio job company_name job_title email_date ∧
    calculate_match_score ratio job company_name job_title email_date ≤ 1 ∧
    (∀ loc comp, match_location loc comp = 3/10) := by
  have heq : calculate_match_score ratio job company_name job_title email_date =
      pyMin (match_company_name ratio job.company company_name * (4/10)
        + (match job_title with
            | some t =>
                if t ≠ "" ∧ job.title ≠ "" then match_job_title ratio job.title t else 0
            | none => 0) * (3/10)
        + (match email_date, job.created_at with
            | some e, some c => calculate_temporal_score c e
            | _, _ => 0) * (2/10)
        + (match job.location with
            | some l => if l ≠ "" then match_location l company_name else 0
            | none => 0) * (1/10)) 1 := by
    unfold calculate_match_score
    rw [if_neg hc]
    show pyMin (match_company_name ratio job.company company_name * (4/10)
        + ((match job_title with
            | some t =>
                if t ≠ "" ∧ job.title ≠ "" then match_job_title ratio job.title t else 0
            | none => 0) * (3/10)
        + ((match email_date, job.created_at with
            | some e, some c => calculate_temporal_score c e
            | _, _ => 0) * (2/10)
        + ((match job.location with
            | some l => if l ≠ "" then match_location l company_name else 0
            | none => 0) * (1/10) + 0)))) 1 = _
    congr 1
    ring
  refine ⟨heq, ?_, ?_, fun loc comp => rfl⟩
  · rw [heq]
    refine (pyMin_one_bounds _ ?_).1
    have hcs := (match_company_name_bounds ratio h job.company company_name).1
    have hts := title_term_nonneg ratio h job.title job_title
    have htm := time_term_nonneg email_date job.created_at
    have hloc := loc_term_nonneg job.location company_name
    linarith
  · rw [heq]
    refine (pyMin_one_bounds _ ?_).2
    have hcs := (match_company_name_bounds ratio h job.company company_name).1
    have hts := title_term_nonneg ratio h job.title job_title
    have htm := time_term_nonneg email_date job.created_at
    have hloc := loc_term_nonneg job.location company_name
    linarith

/-- C2 witness: the weighted sum evaluated at a concrete listing and signal
(exact company and title, same-day receipt, listing located in NYC):
0.4·1 + 0.3·1 + 0.2·1 + 0.1·0.3 = 0.93, within `[0, 1]`. -/
theorem c2_witness :
    0 ≤ calculate_match_score zeroRatio
        { id := 2, title := "Engineer", company := "Google"
          location := some "NYC", created_at := some 0 }
        "Google" (some "Engineer") (some 0) ∧
    calculate_match_score zeroRatio
        { id := 2, title := "Engineer", company := "Google"
          location := some "NYC", created_at := some 0 }
        "Google" (some "Engineer") (some 0) ≤ 1 :=
  ⟨(c2_match_score_weighted_sum zeroRatio zeroRatio_bounded
      { id := 2, title := "Engineer", company := "Google"
        location := some "NYC", created_at := some 0 }
      "Google" (some "Engineer") (some 0) (by decide)).2.1,
   (c2_match_score_weighted_sum zeroRatio zeroRatio_bounded
      { id := 2, title := "Engineer", company := "Google"
        location := some "NYC", created_at := some 0 }
      "Google" (some "Engineer") (some 0) (by decide)).2.2.1⟩

/-- C4 (amended): for non-empty titles, title similarity is 1.0 on equal
lowercased titles, 0.9 on a substring match, and otherwise the maximum of the
string-similarity ratio and 0.8 times the word-overlap ratio
`|common| / max(|words₁|, |words₂|)` of the whitespace-tokenized word sets
(the overlap denominator is the larger set's size, not the union's as in the
Jaccard index). -/
theorem c4_title_similarity_cases (ratio : String → String → ℚ)
    (h : RatioBounded ratio) (job_title email_title : String)
    (hjt : job_title ≠ "") (het : email_title ≠ "") :
    (pyLower job_title = pyLower email_title →
      match_job_title ratio job_title email_title = 1) ∧
    (pyLower job_title ≠ pyLower email_title →
      (pySubstr (pyLower job_title) (pyLower email_title)
        || pySubstr (pyLower email_title) (pyLower job_title)) = true →
      match_job_title ratio job_title email_title = 9/10) ∧
    (pyLower job_title ≠ pyLower email_title →
      (pySubstr (pyLower job_title) (pyLower email_title)
        || pySubstr (pyLower email_title) (pyLower job_title)) = false →
      match_job_title ratio job_title email_title =
        pyMax (ratio (pyLower job_title) (pyLower email_title))
          ((((pyWordSet (pyLower job_title)).filter
              (fun w => (pyWordSet (pyLower email_title)).contains w)).length : ℚ) /
            (((max (pyWordSet (pyLower job_title)).length
              (pyWordSet (pyLower email_title)).length : Nat)) : ℚ) * (8/10))) := by
  refine ⟨fun heq => ?_, fun hne hsub => ?_, fun hne hsub => ?_⟩
  · unfold match_job_title
    simp [hjt, het, heq]
  · unfold match_job_title
    simp [hjt, het, hne, hsub]
  · unfold match_job_title
    simp only [hjt, het, hne, hsub]
    by_cases hw : pyWordSet (pyLower job_title) ≠ [] ∧ pyWordSet (pyLower email_title) ≠ []
    · simp [hjt, het, hne, hsub, hw]
    · have hmax0 : pyMax (ratio (pyLower job_title) (pyLower email_title)) 0
          = ratio (pyLower job_title) (pyLower email_title) := by
        unfold pyMax
        rw [if_neg (not_lt.mpr (h _ _).1)]
      rcases not_and_or.mp hw with hww | hww
      · rw [not_ne_iff.mp hww]
        simp [hjt, het, hne, hsub, hmax0, List.filter_nil]
      · rw [not_ne_iff.mp hww]
        simp [hjt, het, hne, hsub, hmax0]

unseal Rat.mul Rat.inv Rat.add Rat.sub Rat.ofScientific in
/-- C4 counterexample: on titles `"a b"` and `"b c"` (no exact or substring
match, one word in common) the code scores
`max(ratio, 0.8·(1/2)) = 0.4`, while the claim's Jaccard reading demands
`max(ratio, 0.8·(1/3)) = 4/15`. -/
theorem c4_counterexample :
    match_job_title zeroRatio "a b" "b c" = 2/5 ∧
    pyMax (zeroRatio (pyLower "a b") (pyLower "b c"))
      ((8/10) * specJaccard (pyWordSet (pyLower "a b")) (pyWordSet (pyLower "b c")))
      = 4/15 ∧
    (2/5 : ℚ) ≠ 4/15 :=
  ⟨by decide, by decide, by decide⟩

/-- C4 witness: the exact-match case evaluated concretely — lowercased-equal
titles score 1.0. -/
theorem c4_witness : match_job_title zeroRatio "Engineer" "engineer" = 1 :=
  (c4_title_similarity_cases zeroRatio zeroRatio_bounded "Engineer" "engineer"
    (by decide) (by decide)).1 (by decide)

/-- C9 (amended): whenever `_update_job_status` reports a write, it has set
the matched application's status to exactly the status mapped from the email
type, at a match score at or above the 0.8 auto-update gate — the write does
not consult the application's current status, so it is not guaranteed to move
forward in the progression (see `c9_counterexample`). -/
theorem c9_update_writes_mapped_status (ratio : String → String → ℚ)
    (now : ℤ) (db : DBState) (email_event : EmailEvent)
    (classification : Classification) (user_id : String)
    (h : (update_job_status ratio now db email_event classification user_id).1 = true) :
    ∃ (job_id : Nat) (score : ℚ) (new_status : String),
      find_matching_job ratio db user_id (classification.company_name.getD "")
        classification.job_title (some email_event.email_received_at)
        = some (job_id, score) ∧
      (8/10 : ℚ) ≤ score ∧
      get_status_update_mapping classification.email_type = some new_status ∧
      (update_job_status ratio now db email_event classification user_id).2.applications
        = update_first db.applications
            (fun a => a.user_id == user_id && a.job_id == job_id)
            (fun a => { a with application_status := new_status,
                               updated_at := some now }) := by
  unfold update_job_status at h ⊢
  cases hfind : find_matching_job ratio db user_id (classification.company_name.getD "")
      classification.job_title (some email_event.email_received_at) with
  | none =>
      rw [hfind] at h
      simp at h
  | some js =>
      obtain ⟨job_id, score⟩ := js
      rw [hfind] at h
      dsimp only at h ⊢
      by_cases hauto : should_auto_update_status score = true
      · rw [if_neg (by simp [hauto])] at h ⊢
        cases hmap : get_status_update_mapping classification.email_type with
        | none =>
            rw [hmap] at h
            simp at h
        | some new_status =>
            rw [hmap] at h
            dsimp only at h ⊢
            cases hfa : db.applications.find?
                (fun a => a.user_id == user_id && a.job_id == job_id) with
            | none =>
                rw [hfa] at h
                simp at h
            | some app =>
                refine ⟨job_id, score, new_status, rfl, ?_, rfl, rfl⟩
                have := of_decide_eq_true
                  (show decide ((8/10 : ℚ) ≤ score) = true from hauto)
                exact this
      · rw [if_pos (by simp [hauto])] at h
        simp at h

/-- C9 inputs: one `interviewed` application at listing 1, and an
`application_confirmation` email matching that listing exactly. -/
def c9db : DBState :=
  { listings := [{ id := 1, title := "Engineer", company := "Google"
                   location := none, created_at := some 0 }]
    applications := [{ user_id := "u", job_id := 1
                       application_status := "interviewed", updated_at := none }]
    events := [] }

def c9event : EmailEvent :=
  { user_id := "u", gmail_connection_id := 1, email_message_id := "m9"
    sender_email := "jobs@google.com", sender_name := "Google", subject := "thanks"
    email_received_at := 0, email_type := "application_confirmation"
    confidence_score := 9/10, company_name := some "Google"
    matched_job_id := none, processed_at := none, status_updated := false }

def c9cls : Classification :=
  { email_type := "application_confirmation", confidence_score := 9/10
    company_name := some "Google", job_title := some "Engineer" }

unseal Rat.mul Rat.inv Rat.add Rat.sub Rat.ofScientific in
/-- C9 counterexample: at match score 0.9 the processor writes the mapped
status `applied` onto an application currently `interviewed` — an
email-driven update that moves the application backwards in the progression
`interested → applied → interviewed → (rejected | hired)`. -/
theorem c9_counterexample :
    (update_job_status zeroRatio 0 c9db c9event c9cls "u").1 = true ∧
    c9db.applications.map (fun a => a.application_status) = ["interviewed"] ∧
    (update_job_status zeroRatio 0 c9db c9event c9cls "u").2.applications.map
      (fun a => a.application_status) = ["applied"] ∧
    statusRank "applied" < statusRank "interviewed" :=
  ⟨by decide, by decide, by decide, by decide⟩

unseal Rat.mul Rat.inv Rat.add Rat.sub Rat.ofScientific in
/-- C9 witness: the amended characterization applied to the concrete write of
`c9_counterexample`. -/
theorem c9_witness :
    ∃ (job_id : Nat) (score : ℚ) (new_status : String),
      find_matching_job zeroRatio c9db "u" (c9cls.company_name.getD "")
        c9cls.job_title (some c9event.email_received_at) = some (job_id, score) ∧
      (8/10 : ℚ) ≤ score ∧
      get_status_update_mapping c9cls.email_type = some new_status ∧
      (update_job_status zeroRatio 0 c9db c9event c9cls "u").2.applications
        = update_first c9db.applications
            (fun a => a.user_id == "u" && a.job_id == job_id)
            (fun a => { a with application_status := new_status,
                               updated_at := some 0 }) :=
  c9_update_writes_mapped_status zeroRatio 0 c9db c9event c9cls "u" (by decide)
